import Mathlib

/-!
Shallow embedding of the SMA crossover strategy of `src/app.py`
(class `SMAStrategy`, running inside the backtrader engine).

The strategy trades two instruments: `datas[0]` is VTI and `datas[1]` is TLT.
Its per-bar decision logic (`SMAStrategy.next`), order notification handler
(`SMAStrategy.notify_order`) and trade notification handler
(`SMAStrategy.notify_trade`) are embedded as pure functions over an explicit
state record.  Prices are embedded as rationals.

One engine fact matters for the embedding of `next` and is recorded here:
in backtrader, `self.position` on a strategy is
`self.broker.getposition(self.datas[0])`, i.e. the position of the FIRST
data feed only (VTI), and a `Position` object is truthy iff its `size`
is non-zero.  Hence the guard `if not self.position:` at line 95 of
`src/app.py` tests only `vtiSize = 0`; it does not look at the TLT position.
-/

namespace AmazonQMacro

/-- The two tradable instruments: `datas[0]` is VTI, `datas[1]` is TLT. -/
inductive Instr
  | VTI
  | TLT
  deriving DecidableEq, Repr

/-- Direction of an order (`order.isbuy()` distinguishes the two). -/
inductive Side
  | buy
  | sell
  deriving DecidableEq, Repr

/-- backtrader order statuses that can reach `notify_order`. -/
inductive OrderStatus
  | Created
  | Submitted
  | Accepted
  | Partial
  | Completed
  | Canceled
  | Expired
  | Margin
  | Rejected
  deriving DecidableEq, Repr

/-- The strategy state, together with the broker-owned position sizes the
strategy reads through `self.position` / `self.getposition(data)`.
`order` embeds `self.order`: `none` when no order is pending, otherwise the
instrument and direction of the pending order (`src/app.py` lines 27-30). -/
structure StratState where
  order : Option (Instr × Side)
  buyprice : Option ℚ
  buycomm : Option ℚ
  barExecuted : Option ℕ
  vtiSize : ℤ
  tltSize : ℤ
  deriving DecidableEq, Repr

/-- The SMA values `next` reads on the current bar: `X[0]` and `X[-1]` of the
fast and slow simple moving averages of each instrument. -/
structure Signals where
  vtiFast0 : ℚ
  vtiSlow0 : ℚ
  vtiFastM1 : ℚ
  vtiSlowM1 : ℚ
  tltFast0 : ℚ
  tltSlow0 : ℚ
  tltFastM1 : ℚ
  tltSlowM1 : ℚ
  deriving DecidableEq, Repr

/-- An order intent emitted to the engine: `self.buy(data=...)` or
`self.sell(data=...)`. -/
inductive Intent
  | buyIntent (i : Instr)
  | sellIntent (i : Instr)
  deriving DecidableEq, Repr

/-- Structured log output of the strategy (`self.log(...)` calls). -/
inductive LogEntry
  | closeLog (vtiClose tltClose : ℚ)
  | buyCreate (i : Instr) (price : ℚ)
  | sellCreate (i : Instr) (price : ℚ)
  | buyExecuted (price value comm : ℚ)
  | sellExecuted (price value comm : ℚ)
  | orderCanceled
  | opProfit (gross net : ℚ)
  deriving DecidableEq, Repr

/-- Result of one `next` call: successor state, the emitted order intent
(at most one), and the log lines printed during the call. -/
structure NextResult where
  state : StratState
  intent : Option Intent
  log : List LogEntry
  deriving DecidableEq, Repr

/-- `SMAStrategy.next` (`src/app.py` lines 86-119), one bar of decision logic.

Line 88 always logs both close prices.  Line 91 returns early when an order
is pending.  Line 95 `if not self.position:` tests the VTI position only
(see the header note): when `vtiSize = 0` the strategy checks the VTI
bullish-cross condition (line 97), then the TLT bullish-cross condition
(line 102), buying the first that fires.  Otherwise (line 107) it checks
`getposition(datas[0]).size > 0` to sell VTI on a VTI bearish cross, and
only failing that checks `getposition(datas[1]).size > 0` to sell TLT on a
TLT bearish cross. -/
def SMAStrategy.next (s : StratState) (g : Signals) (vtiClose tltClose : ℚ) :
    NextResult :=
  if s.order.isSome then
    { state := s, intent := none, log := [LogEntry.closeLog vtiClose tltClose] }
  else if s.vtiSize = 0 then
    if g.vtiFast0 > g.vtiSlow0 ∧ g.vtiFastM1 ≤ g.vtiSlowM1 then
      { state := { s with order := some (Instr.VTI, Side.buy) },
        intent := some (Intent.buyIntent Instr.VTI),
        log := [LogEntry.closeLog vtiClose tltClose,
                LogEntry.buyCreate Instr.VTI vtiClose] }
    else if g.tltFast0 > g.tltSlow0 ∧ g.tltFastM1 ≤ g.tltSlowM1 then
      { state := { s with order := some (Instr.TLT, Side.buy) },
        intent := some (Intent.buyIntent Instr.TLT),
        log := [LogEntry.closeLog vtiClose tltClose,
                LogEntry.buyCreate Instr.TLT tltClose] }
    else
      { state := s, intent := none, log := [LogEntry.closeLog vtiClose tltClose] }
  else
    if s.vtiSize > 0 then
      if g.vtiFast0 < g.vtiSlow0 ∧ g.vtiFastM1 ≥ g.vtiSlowM1 then
        { state := { s with order := some (Instr.VTI, Side.sell) },
          intent := some (Intent.sellIntent Instr.VTI),
          log := [LogEntry.closeLog vtiClose tltClose,
                  LogEntry.sellCreate Instr.VTI vtiClose] }
      else
        { state := s, intent := none, log := [LogEntry.closeLog vtiClose tltClose] }
    else if s.tltSize > 0 then
      if g.tltFast0 < g.tltSlow0 ∧ g.tltFastM1 ≥ g.tltSlowM1 then
        { state := { s with order := some (Instr.TLT, Side.sell) },
          intent := some (Intent.sellIntent Instr.TLT),
          log := [LogEntry.closeLog vtiClose tltClose,
                  LogEntry.sellCreate Instr.TLT tltClose] }
      else
        { state := s, intent := none, log := [LogEntry.closeLog vtiClose tltClose] }
    else
      { state := s, intent := none, log := [LogEntry.closeLog vtiClose tltClose] }

/-- An order-status notification delivered by the engine, carrying the fields
of `order` that `notify_order` reads. -/
structure OrderNotif where
  status : OrderStatus
  instr : Instr
  side : Side
  execPrice : ℚ
  execValue : ℚ
  execComm : ℚ
  deriving DecidableEq, Repr

/-- `SMAStrategy.notify_order` (`src/app.py` lines 50-78).  `barLen` embeds
`len(self)`.  Submitted/Accepted return early with nothing done; Completed
logs the execution and, for a buy, records `buyprice`/`buycomm`; the
Canceled/Margin/Rejected list logs the rejection; every non-early path ends
with `self.order = None` (line 78). -/
def SMAStrategy.notifyOrder (s : StratState) (barLen : ℕ) (o : OrderNotif) :
    StratState × List LogEntry :=
  if o.status = OrderStatus.Submitted ∨ o.status = OrderStatus.Accepted then
    (s, [])
  else if o.status = OrderStatus.Completed then
    if o.side = Side.buy then
      ({ s with buyprice := some o.execPrice, buycomm := some o.execComm,
                barExecuted := some barLen, order := none },
       [LogEntry.buyExecuted o.execPrice o.execValue o.execComm])
    else
      ({ s with barExecuted := some barLen, order := none },
       [LogEntry.sellExecuted o.execPrice o.execValue o.execComm])
  else if o.status = OrderStatus.Canceled ∨ o.status = OrderStatus.Margin ∨
      o.status = OrderStatus.Rejected then
    ({ s with order := none }, [LogEntry.orderCanceled])
  else
    ({ s with order := none }, [])

/-- A trade notification delivered by the engine, carrying the fields of
`trade` that `notify_trade` reads. -/
structure Trade where
  isclosed : Bool
  pnl : ℚ
  pnlcomm : ℚ
  deriving DecidableEq, Repr

/-- `SMAStrategy.notify_trade` (`src/app.py` lines 80-84): open trades are
ignored; a closed trade logs its gross and net profit.  It mutates no
strategy state. -/
def SMAStrategy.notifyTrade (t : Trade) : List LogEntry :=
  if t.isclosed then [LogEntry.opProfit t.pnl t.pnlcomm] else []

/-- Modelled from the spec: the external execution engine's closed-trade
record for a round trip of `qty` units bought at `entryPrice` and sold at
`exitPrice`, paying `entryComm` and `exitComm` in commission ("a logged
profit figure equal to (exit price − entry price) × quantity minus
commissions").  The trade object itself is built by the engine
(backtrader's `Trade`), not by code under `src/`. -/
def mkClosedTrade (entryPrice exitPrice qty entryComm exitComm : ℚ) : Trade :=
  { isclosed := true
    pnl := (exitPrice - entryPrice) * qty
    pnlcomm := (exitPrice - entryPrice) * qty - (entryComm + exitComm) }

/-- Modelled from the spec: the external engine's position update when a
one-unit order fills (the `FixedSize` sizer with `stake=1` is configured in
`main`, `src/app.py` line 197).  Position sizes are broker ground truth. -/
def brokerFill (s : StratState) (i : Instr) (sd : Side) : StratState :=
  match i, sd with
  | Instr.VTI, Side.buy => { s with vtiSize := s.vtiSize + 1 }
  | Instr.VTI, Side.sell => { s with vtiSize := s.vtiSize - 1 }
  | Instr.TLT, Side.buy => { s with tltSize := s.tltSize + 1 }
  | Instr.TLT, Side.sell => { s with tltSize := s.tltSize - 1 }

/-- The strategy state right after `SMAStrategy.__init__` (`src/app.py`
lines 27-30): no pending order, no recorded buy price or commission, and
(broker ground truth) no position in either instrument. -/
def SMAStrategy.initState : StratState :=
  { order := none, buyprice := none, buycomm := none,
    barExecuted := none, vtiSize := 0, tltSize := 0 }

/-- The strategy parameters (`src/app.py` lines 12-15): loosely typed
keyword defaults, here as plain integers so that non-positive values are
representable. -/
structure Params where
  fast_period : ℤ
  slow_period : ℤ
  deriving DecidableEq, Repr

/-- `SMAStrategy.__init__` (`src/app.py` lines 22-48) viewed as a fallible
constructor.  The source stores line references, sets `order`, `buyprice`
and `buycomm` to `None`, and instantiates four `SimpleMovingAverage`
indicators and two `CrossOver` indicators; it contains no validation of
`fast_period` or `slow_period` and no error path (indicator construction in
the engine merely records a minimum period).  The `Except` codomain records
that no construction-time error is ever raised, whatever the parameters. -/
def SMAStrategy.construct (p : Params) : Except String (Params × StratState) :=
  Except.ok (p, SMAStrategy.initState)

/-- The spec's controller state machine states
{Flat, AwaitingEntry(X), Holding(X), AwaitingExit(X)}. -/
inductive MState
  | flat
  | awaitingEntry (i : Instr)
  | holding (i : Instr)
  | awaitingExit (i : Instr)
  deriving DecidableEq, Repr

/-- The spec-level state-machine state determined by a strategy state: a
pending buy (sell) order is AwaitingEntry (AwaitingExit); with no pending
order the position sizes determine Flat or Holding(X).  States the spec's
machine cannot describe (e.g. positions in both instruments at once) map
to `none`. -/
def machineState (s : StratState) : Option MState :=
  match s.order with
  | some (i, Side.buy) => some (MState.awaitingEntry i)
  | some (i, Side.sell) => some (MState.awaitingExit i)
  | none =>
    if s.vtiSize = 0 ∧ s.tltSize = 0 then some MState.flat
    else if s.vtiSize > 0 ∧ s.tltSize = 0 then some (MState.holding Instr.VTI)
    else if s.vtiSize = 0 ∧ s.tltSize > 0 then some (MState.holding Instr.TLT)
    else none

/-! ### Signal engine: simple moving averages and crossover classification -/

/-- The simple moving average of window `period` over the close series
`closes` at bar index `t` (0-based): the mean of the `period` closes ending
at index `t`, defined once the window is filled (backtrader's
`SimpleMovingAverage` is NaN, and the strategy is not yet called, before
that). -/
def sma (period : ℕ) (closes : List ℚ) (t : ℕ) : Option ℚ :=
  if 0 < period ∧ period ≤ t + 1 ∧ t < closes.length then
    some (((closes.drop (t + 1 - period)).take period).sum / (period : ℚ))
  else
    none

/-- Crossover classification of one instrument on one bar. -/
inductive Cross
  | noCross
  | bullishCross
  | bearishCross
  deriving DecidableEq, Repr

/-- The crossover test `next` applies to the two most recent fast/slow SMA
pairs of an instrument (`src/app.py` lines 97, 102 for bullish and
111, 116 for bearish): bullish when `fast[0] > slow[0]` and
`fast[-1] <= slow[-1]`, bearish when `fast[0] < slow[0]` and
`fast[-1] >= slow[-1]`. -/
def crossClassify (fast0 slow0 fastm1 slowm1 : ℚ) : Cross :=
  if fast0 > slow0 ∧ fastm1 ≤ slowm1 then Cross.bullishCross
  else if fast0 < slow0 ∧ fastm1 ≥ slowm1 then Cross.bearishCross
  else Cross.noCross

/-- The crossover classification of an instrument at bar `t` from its close
series: insufficient history for any of the four SMA reads yields
`noCross` (the engine does not call the strategy before the windows fill,
and a NaN prior value satisfies neither comparison). -/
def crossSignal (fastP slowP : ℕ) (closes : List ℚ) (t : ℕ) : Cross :=
  match sma fastP closes t, sma slowP closes t,
      sma fastP closes (t - 1), sma slowP closes (t - 1) with
  | some f0, some s0, some f1, some s1 => crossClassify f0 s0 f1 s1
  | _, _, _, _ => Cross.noCross

/-! ### Theorems -/

/-- Claim C1: refuted on the code.  From the freshly constructed state, a
TLT-only bullish bar makes the strategy buy TLT; after the engine fills that
order and `notify_order` records the completion, the strategy holds a long
TLT position (`tltSize = 1`).  On the next bar, with a VTI bullish cross,
`next` nevertheless emits a buy intent for VTI, because the guard
`if not self.position:` reads only the VTI position — so a buy intent for
one instrument is emitted while a long position in the other is open. -/
theorem next_buys_vti_while_holding_tlt :
    (SMAStrategy.next SMAStrategy.initState ⟨0, 1, 0, 1, 2, 1, 1, 1⟩ 10 10).intent
      = some (Intent.buyIntent Instr.TLT) ∧
    (SMAStrategy.notifyOrder
        (brokerFill
          (SMAStrategy.next SMAStrategy.initState ⟨0, 1, 0, 1, 2, 1, 1, 1⟩ 10 10).state
          Instr.TLT Side.buy)
        1 ⟨OrderStatus.Completed, Instr.TLT, Side.buy, 5, 5, 1⟩).1
      = { order := none, buyprice := some 5, buycomm := some (1),
          barExecuted := some 1, vtiSize := 0, tltSize := 1 } ∧
    (SMAStrategy.next
        { order := none, buyprice := some 5, buycomm := some (1),
          barExecuted := some 1, vtiSize := 0, tltSize := 1 }
        ⟨2, 1, 1, 1, 0, 1, 0, 1⟩ 10 10).intent
      = some (Intent.buyIntent Instr.VTI) := by
  decide

/-- Claim C2: refuted on the code.  In the reachable state that holds one
unit of TLT with no pending order (not Flat), a TLT bullish cross makes
`next` emit a buy intent — a buy is emitted while the state is not Flat,
again because `if not self.position:` tests only the VTI position. -/
theorem next_buys_tlt_while_holding_tlt :
    (({ order := none, buyprice := some 5, buycomm := some (1),
        barExecuted := some 1, vtiSize := 0, tltSize := 1 } : StratState).tltSize ≠ 0) ∧
    (SMAStrategy.next
        { order := none, buyprice := some 5, buycomm := some (1),
          barExecuted := some 1, vtiSize := 0, tltSize := 1 }
        ⟨0, 1, 0, 1, 3, 2, 2, 2⟩ 10 10).intent
      = some (Intent.buyIntent Instr.TLT) := by
  decide

/-- Claim C3: if the Pending Order Marker (`self.order`) is set at the start
of a bar's evaluation, `next` emits no order intent and leaves the state
unchanged — at most one of {marker set, new intent emitted} holds per bar. -/
theorem pending_order_blocks_new_intent (s : StratState) (g : Signals)
    (cv ct : ℚ) (h : s.order.isSome = true) :
    (SMAStrategy.next s g cv ct).intent = none ∧
    (SMAStrategy.next s g cv ct).state = s := by
  unfold SMAStrategy.next
  simp [h]

/-- Witness for C3 at a concrete pending state and bar. -/
theorem pending_order_blocks_new_intent_witness :
    (SMAStrategy.next
        { order := some (Instr.VTI, Side.buy), buyprice := none, buycomm := none,
          barExecuted := none, vtiSize := 0, tltSize := 0 }
        ⟨2, 1, 1, 1, 2, 1, 1, 1⟩ 10 10).intent = none ∧
    (SMAStrategy.next
        { order := some (Instr.VTI, Side.buy), buyprice := none, buycomm := none,
          barExecuted := none, vtiSize := 0, tltSize := 0 }
        ⟨2, 1, 1, 1, 2, 1, 1, 1⟩ 10 10).state
      = { order := some (Instr.VTI, Side.buy), buyprice := none, buycomm := none,
          barExecuted := none, vtiSize := 0, tltSize := 0 } :=
  pending_order_blocks_new_intent _ _ _ _ rfl

/-- Claim C4: Flat (no position in either instrument), no pending order, and
both instruments showing a bullish cross on the same bar: the emitted intent
is a buy of VTI (Instrument A) — A is evaluated first and wins the tie. -/
theorem flat_tie_break_buys_vti (s : StratState) (g : Signals) (cv ct : ℚ)
    (ho : s.order = none) (hv : s.vtiSize = 0) (_ht : s.tltSize = 0)
    (hA1 : g.vtiFast0 > g.vtiSlow0) (hA2 : g.vtiFastM1 ≤ g.vtiSlowM1)
    (_hB1 : g.tltFast0 > g.tltSlow0) (_hB2 : g.tltFastM1 ≤ g.tltSlowM1) :
    (SMAStrategy.next s g cv ct).intent = some (Intent.buyIntent Instr.VTI) := by
  unfold SMAStrategy.next
  simp [ho, hv, hA1, hA2]

/-- Witness for C4 at a concrete Flat state and doubly bullish bar. -/
theorem flat_tie_break_buys_vti_witness :
    (SMAStrategy.next SMAStrategy.initState ⟨2, 1, 1, 1, 2, 1, 1, 1⟩ 10 10).intent
      = some (Intent.buyIntent Instr.VTI) :=
  flat_tie_break_buys_vti SMAStrategy.initState ⟨2, 1, 1, 1, 2, 1, 1, 1⟩ 10 10
    rfl rfl rfl (by norm_num) (by norm_num) (by norm_num) (by norm_num)

/-- Helper: `crossClassify` yields `bullishCross` exactly on the bullish
condition. -/
theorem crossClassify_eq_bullish_iff (f0 s0 f1 s1 : ℚ) :
    crossClassify f0 s0 f1 s1 = Cross.bullishCross ↔ f0 > s0 ∧ f1 ≤ s1 := by
  unfold crossClassify
  split_ifs with h1 h2 <;> simp_all

/-- Helper: `crossClassify` yields `bearishCross` exactly on the bearish
condition. -/
theorem crossClassify_eq_bearish_iff (f0 s0 f1 s1 : ℚ) :
    crossClassify f0 s0 f1 s1 = Cross.bearishCross ↔ f0 < s0 ∧ f1 ≥ s1 := by
  unfold crossClassify
  split_ifs with h1 h2
  · constructor
    · intro h
      exact absurd h (by simp)
    · intro h
      exact absurd h.1 (lt_asymm h1.1)
  · simp_all
  · simp_all

/-- Claim C5: with sufficient history (all four SMA reads defined), the bar
classifies BullishCross exactly when `fast_t > slow_t` and
`fast_{t-1} ≤ slow_{t-1}`, and BearishCross exactly when `fast_t < slow_t`
and `fast_{t-1} ≥ slow_{t-1}`; and on fast values [1,1,2] against slow
values [2,1,1], bar 2 (fast 2 vs slow 1 now, fast 1 vs slow 1 before)
classifies as BullishCross. -/
theorem crossover_classification_rule (fP sP : ℕ) (closes : List ℚ) (t : ℕ)
    (f0 s0 f1 s1 : ℚ)
    (hf0 : sma fP closes t = some f0) (hs0 : sma sP closes t = some s0)
    (hf1 : sma fP closes (t - 1) = some f1) (hs1 : sma sP closes (t - 1) = some s1) :
    (crossSignal fP sP closes t = Cross.bullishCross ↔ f0 > s0 ∧ f1 ≤ s1) ∧
    (crossSignal fP sP closes t = Cross.bearishCross ↔ f0 < s0 ∧ f1 ≥ s1) ∧
    crossClassify 2 1 1 1 = Cross.bullishCross := by
  have hsig : crossSignal fP sP closes t = crossClassify f0 s0 f1 s1 := by
    unfold crossSignal
    rw [hf0, hs0, hf1, hs1]
  rw [hsig]
  exact ⟨crossClassify_eq_bullish_iff f0 s0 f1 s1,
         crossClassify_eq_bearish_iff f0 s0 f1 s1,
         by decide⟩

/-- Witness for C5 on the close series [4, 1, 4] with windows 1 and 2 at
bar 2: fast SMA is 4 now and 1 before, slow SMA is 5/2 both times, and the
bar classifies bullish as the rule dictates. -/
theorem crossover_classification_rule_witness :
    (crossSignal 1 2 [4, 1, 4] 2 = Cross.bullishCross ↔
        (4 : ℚ) > 5/2 ∧ (1 : ℚ) ≤ 5/2) ∧
    (crossSignal 1 2 [4, 1, 4] 2 = Cross.bearishCross ↔
        (4 : ℚ) < 5/2 ∧ (1 : ℚ) ≥ 5/2) ∧
    crossClassify 2 1 1 1 = Cross.bullishCross :=
  crossover_classification_rule 1 2 [4, 1, 4] 2 4 (5/2) 1 (5/2)
    (by norm_num [sma]) (by norm_num [sma]) (by norm_num [sma]) (by norm_num [sma])

/-- Claim C6: on a Canceled, Margin or Rejected notification, `notify_order`
clears the Pending Order Marker and changes nothing else, so the controller
reverts to the state held before the order was issued: Flat when the
positions are flat (an entry attempt), Holding(X) when a position in X is
open (an exit attempt).  No retry happens, and on the very next bar a fresh
VTI bullish cross from the flat state makes `next` emit a new buy intent. -/
theorem rejection_reverts_state (s : StratState) (n : ℕ) (o : OrderNotif)
    (g : Signals) (cv ct : ℚ)
    (hst : o.status = OrderStatus.Canceled ∨ o.status = OrderStatus.Margin ∨
      o.status = OrderStatus.Rejected) :
    (SMAStrategy.notifyOrder s n o).1 = { s with order := none } ∧
    (s.vtiSize = 0 → s.tltSize = 0 →
      machineState (SMAStrategy.notifyOrder s n o).1 = some MState.flat) ∧
    (s.vtiSize > 0 → s.tltSize = 0 →
      machineState (SMAStrategy.notifyOrder s n o).1
        = some (MState.holding Instr.VTI)) ∧
    (s.vtiSize = 0 → s.tltSize > 0 →
      machineState (SMAStrategy.notifyOrder s n o).1
        = some (MState.holding Instr.TLT)) ∧
    (s.vtiSize = 0 → g.vtiFast0 > g.vtiSlow0 → g.vtiFastM1 ≤ g.vtiSlowM1 →
      (SMAStrategy.next (SMAStrategy.notifyOrder s n o).1 g cv ct).intent
        = some (Intent.buyIntent Instr.VTI)) := by
  have hres : SMAStrategy.notifyOrder s n o = ({ s with order := none },
      [LogEntry.orderCanceled]) := by
    unfold SMAStrategy.notifyOrder
    rcases hst with h | h | h <;> simp [h]
  rw [hres]
  refine ⟨rfl, ?_, ?_, ?_, ?_⟩
  · intro hv ht
    simp [machineState, hv, ht]
  · intro hv ht
    have hv0 : ¬ ((s.vtiSize = 0)) := by omega
    simp [machineState, hv, ht, hv0]
  · intro hv ht
    have ht0 : ¬ ((s.tltSize = 0)) := by omega
    simp [machineState, hv, ht, ht0]
  · intro hv h1 h2
    unfold SMAStrategy.next
    simp [hv, h1, h2]

/-- Witness for C6: a rejected entry attempt for VTI from the flat state is
rolled back to Flat, and a bullish VTI bar immediately afterwards produces a
fresh buy intent. -/
theorem rejection_reverts_state_witness :
    (SMAStrategy.notifyOrder
        { order := some (Instr.VTI, Side.buy), buyprice := none, buycomm := none,
          barExecuted := none, vtiSize := 0, tltSize := 0 }
        3 ⟨OrderStatus.Rejected, Instr.VTI, Side.buy, 0, 0, 0⟩).1
      = { order := none, buyprice := none, buycomm := none,
          barExecuted := none, vtiSize := 0, tltSize := 0 } ∧
    ((0 : ℤ) = 0 → (0 : ℤ) = 0 →
      machineState
        (SMAStrategy.notifyOrder
          { order := some (Instr.VTI, Side.buy), buyprice := none, buycomm := none,
            barExecuted := none, vtiSize := 0, tltSize := 0 }
          3 ⟨OrderStatus.Rejected, Instr.VTI, Side.buy, 0, 0, 0⟩).1 = some MState.flat) ∧
    ((0 : ℤ) > 0 → (0 : ℤ) = 0 →
      machineState
        (SMAStrategy.notifyOrder
          { order := some (Instr.VTI, Side.buy), buyprice := none, buycomm := none,
            barExecuted := none, vtiSize := 0, tltSize := 0 }
          3 ⟨OrderStatus.Rejected, Instr.VTI, Side.buy, 0, 0, 0⟩).1
        = some (MState.holding Instr.VTI)) ∧
    ((0 : ℤ) = 0 → (0 : ℤ) > 0 →
      machineState
        (SMAStrategy.notifyOrder
          { order := some (Instr.VTI, Side.buy), buyprice := none, buycomm := none,
            barExecuted := none, vtiSize := 0, tltSize := 0 }
          3 ⟨OrderStatus.Rejected, Instr.VTI, Side.buy, 0, 0, 0⟩).1
        = some (MState.holding Instr.TLT)) ∧
    ((0 : ℤ) = 0 → (2 : ℚ) > 1 → (1 : ℚ) ≤ 1 →
      (SMAStrategy.next
        (SMAStrategy.notifyOrder
          { order := some (Instr.VTI, Side.buy), buyprice := none, buycomm := none,
            barExecuted := none, vtiSize := 0, tltSize := 0 }
          3 ⟨OrderStatus.Rejected, Instr.VTI, Side.buy, 0, 0, 0⟩).1
        ⟨2, 1, 1, 1, 0, 1, 0, 1⟩ 10 10).intent = some (Intent.buyIntent Instr.VTI)) :=
  rejection_reverts_state
    { order := some (Instr.VTI, Side.buy), buyprice := none, buycomm := none,
      barExecuted := none, vtiSize := 0, tltSize := 0 }
    3 ⟨OrderStatus.Rejected, Instr.VTI, Side.buy, 0, 0, 0⟩
    ⟨2, 1, 1, 1, 0, 1, 0, 1⟩ 10 10 (Or.inr (Or.inr rfl))

/-- Claim C7: with fast window 10 and slow window 20, every bar of index
below 19 (0-based) classifies as no crossover, for every close series: the
slow window is not yet filled, so the signal is `noCross`, not a failure. -/
theorem no_crossover_before_slow_window (closes : List ℚ) (t : ℕ)
    (ht : t < 19) :
    crossSignal 10 20 closes t = Cross.noCross := by
  have h20 : sma 20 closes t = none := by
    unfold sma
    have h : ¬ (20 ≤ t + 1) := by omega
    simp [h]
  unfold crossSignal
  rw [h20]
  cases sma 10 closes t <;> rfl

/-- Witness for C7 at bar 5 of a short concrete series. -/
theorem no_crossover_before_slow_window_witness :
    crossSignal 10 20 [1, 2, 3, 4, 5, 6] 5 = Cross.noCross :=
  no_crossover_before_slow_window [1, 2, 3, 4, 5, 6] 5 (by norm_num)

/-- Claim C8: a full round trip on Instrument A.  From the freshly
constructed Flat state, a VTI bullish bar emits a buy intent and moves to
AwaitingEntry(VTI); the engine fills one unit and the Completed notification
records the fill and reaches Holding(VTI); a VTI bearish bar emits a sell
intent (AwaitingExit(VTI)); the engine fills the sell and the Completed
notification returns the machine to exactly the Flat state it started in;
and the closed trade's logged net profit is
(exit price − entry price) × quantity − commissions. -/
theorem round_trip_restores_flat (pE vE cE pX vX cX cv1 ct1 cv2 ct2 : ℚ)
    (n m : ℕ) (gB gS : Signals)
    (hB1 : gB.vtiFast0 > gB.vtiSlow0) (hB2 : gB.vtiFastM1 ≤ gB.vtiSlowM1)
    (hS1 : gS.vtiFast0 < gS.vtiSlow0) (hS2 : gS.vtiFastM1 ≥ gS.vtiSlowM1) :
    (SMAStrategy.next SMAStrategy.initState gB cv1 ct1).intent
      = some (Intent.buyIntent Instr.VTI) ∧
    (SMAStrategy.next SMAStrategy.initState gB cv1 ct1).state
      = { order := some (Instr.VTI, Side.buy), buyprice := none, buycomm := none,
          barExecuted := none, vtiSize := 0, tltSize := 0 } ∧
    brokerFill
        { order := some (Instr.VTI, Side.buy), buyprice := none, buycomm := none,
          barExecuted := none, vtiSize := 0, tltSize := 0 } Instr.VTI Side.buy
      = { order := some (Instr.VTI, Side.buy), buyprice := none, buycomm := none,
          barExecuted := none, vtiSize := 1, tltSize := 0 } ∧
    SMAStrategy.notifyOrder
        { order := some (Instr.VTI, Side.buy), buyprice := none, buycomm := none,
          barExecuted := none, vtiSize := 1, tltSize := 0 }
        n ⟨OrderStatus.Completed, Instr.VTI, Side.buy, pE, vE, cE⟩
      = ({ order := none, buyprice := some pE, buycomm := some cE,
           barExecuted := some n, vtiSize := 1, tltSize := 0 },
         [LogEntry.buyExecuted pE vE cE]) ∧
    machineState
        { order := none, buyprice := some pE, buycomm := some cE,
          barExecuted := some n, vtiSize := 1, tltSize := 0 }
      = some (MState.holding Instr.VTI) ∧
    (SMAStrategy.next
        { order := none, buyprice := some pE, buycomm := some cE,
          barExecuted := some n, vtiSize := 1, tltSize := 0 } gS cv2 ct2).intent
      = some (Intent.sellIntent Instr.VTI) ∧
    (SMAStrategy.next
        { order := none, buyprice := some pE, buycomm := some cE,
          barExecuted := some n, vtiSize := 1, tltSize := 0 } gS cv2 ct2).state
      = { order := some (Instr.VTI, Side.sell), buyprice := some pE,
          buycomm := some cE, barExecuted := some n, vtiSize := 1, tltSize := 0 } ∧
    brokerFill
        { order := some (Instr.VTI, Side.sell), buyprice := some pE,
          buycomm := some cE, barExecuted := some n, vtiSize := 1, tltSize := 0 }
        Instr.VTI Side.sell
      = { order := some (Instr.VTI, Side.sell), buyprice := some pE,
          buycomm := some cE, barExecuted := some n, vtiSize := 0, tltSize := 0 } ∧
    SMAStrategy.notifyOrder
        { order := some (Instr.VTI, Side.sell), buyprice := some pE,
          buycomm := some cE, barExecuted := some n, vtiSize := 0, tltSize := 0 }
        m ⟨OrderStatus.Completed, Instr.VTI, Side.sell, pX, vX, cX⟩
      = ({ order := none, buyprice := some pE, buycomm := some cE,
           barExecuted := some m, vtiSize := 0, tltSize := 0 },
         [LogEntry.sellExecuted pX vX cX]) ∧
    machineState
        { order := none, buyprice := some pE, buycomm := some cE,
          barExecuted := some m, vtiSize := 0, tltSize := 0 } = some MState.flat ∧
    machineState SMAStrategy.initState = some MState.flat ∧
    SMAStrategy.notifyTrade (mkClosedTrade pE pX 1 cE cX)
      = [LogEntry.opProfit ((pX - pE) * 1) ((pX - pE) * 1 - (cE + cX))] := by
  refine ⟨?_, ?_, rfl, rfl, rfl, ?_, ?_, rfl, rfl, rfl, rfl, rfl⟩
  · unfold SMAStrategy.next
    simp [SMAStrategy.initState, hB1, hB2]
  · unfold SMAStrategy.next
    simp [SMAStrategy.initState, hB1, hB2]
  · unfold SMAStrategy.next
    simp [hS1, hS2]
  · unfold SMAStrategy.next
    simp [hS1, hS2]

/-- Witness for C8 with entry at 5 (commission 1), exit at 9 (commission 2)
and concrete bullish and bearish bars. -/
theorem round_trip_restores_flat_witness :
    (SMAStrategy.next SMAStrategy.initState ⟨3, 2, 2, 2, 0, 1, 0, 1⟩ 10 10).intent
      = some (Intent.buyIntent Instr.VTI) ∧
    (SMAStrategy.next SMAStrategy.initState ⟨3, 2, 2, 2, 0, 1, 0, 1⟩ 10 10).state
      = { order := some (Instr.VTI, Side.buy), buyprice := none, buycomm := none,
          barExecuted := none, vtiSize := 0, tltSize := 0 } ∧
    brokerFill
        { order := some (Instr.VTI, Side.buy), buyprice := none, buycomm := none,
          barExecuted := none, vtiSize := 0, tltSize := 0 } Instr.VTI Side.buy
      = { order := some (Instr.VTI, Side.buy), buyprice := none, buycomm := none,
          barExecuted := none, vtiSize := 1, tltSize := 0 } ∧
    SMAStrategy.notifyOrder
        { order := some (Instr.VTI, Side.buy), buyprice := none, buycomm := none,
          barExecuted := none, vtiSize := 1, tltSize := 0 }
        4 ⟨OrderStatus.Completed, Instr.VTI, Side.buy, 5, 5, 1⟩
      = ({ order := none, buyprice := some 5, buycomm := some 1,
           barExecuted := some 4, vtiSize := 1, tltSize := 0 },
         [LogEntry.buyExecuted 5 5 1]) ∧
    machineState
        { order := none, buyprice := some 5, buycomm := some 1,
          barExecuted := some 4, vtiSize := 1, tltSize := 0 }
      = some (MState.holding Instr.VTI) ∧
    (SMAStrategy.next
        { order := none, buyprice := some 5, buycomm := some 1,
          barExecuted := some 4, vtiSize := 1, tltSize := 0 }
        ⟨1, 2, 2, 2, 0, 1, 0, 1⟩ 10 10).intent
      = some (Intent.sellIntent Instr.VTI) ∧
    (SMAStrategy.next
        { order := none, buyprice := some 5, buycomm := some 1,
          barExecuted := some 4, vtiSize := 1, tltSize := 0 }
        ⟨1, 2, 2, 2, 0, 1, 0, 1⟩ 10 10).state
      = { order := some (Instr.VTI, Side.sell), buyprice := some 5,
          buycomm := some 1, barExecuted := some 4, vtiSize := 1, tltSize := 0 } ∧
    brokerFill
        { order := some (Instr.VTI, Side.sell), buyprice := some 5,
          buycomm := some 1, barExecuted := some 4, vtiSize := 1, tltSize := 0 }
        Instr.VTI Side.sell
      = { order := some (Instr.VTI, Side.sell), buyprice := some 5,
          buycomm := some 1, barExecuted := some 4, vtiSize := 0, tltSize := 0 } ∧
    SMAStrategy.notifyOrder
        { order := some (Instr.VTI, Side.sell), buyprice := some 5,
          buycomm := some 1, barExecuted := some 4, vtiSize := 0, tltSize := 0 }
        7 ⟨OrderStatus.Completed, Instr.VTI, Side.sell, 9, 9, 2⟩
      = ({ order := none, buyprice := some 5, buycomm := some 1,
           barExecuted := some 7, vtiSize := 0, tltSize := 0 },
         [LogEntry.sellExecuted 9 9 2]) ∧
    machineState
        { order := none, buyprice := some 5, buycomm := some 1,
          barExecuted := some 7, vtiSize := 0, tltSize := 0 } = some MState.flat ∧
    machineState SMAStrategy.initState = some MState.flat ∧
    SMAStrategy.notifyTrade (mkClosedTrade 5 9 1 1 2)
      = [LogEntry.opProfit ((9 - 5) * 1) ((9 - 5) * 1 - (1 + 2))] :=
  round_trip_restores_flat 5 5 1 9 9 2 10 10 10 10 4 7
    ⟨3, 2, 2, 2, 0, 1, 0, 1⟩ ⟨1, 2, 2, 2, 0, 1, 0, 1⟩
    (by norm_num) (by norm_num) (by norm_num) (by norm_num)

/-- Claim C9 counterexample: constructing the strategy with a non-positive
fast window (0) does not fail — `SMAStrategy.__init__` performs no
validation, so construction succeeds and no error is surfaced. -/
theorem construct_accepts_zero_window :
    SMAStrategy.construct ⟨0, 20⟩ = Except.ok (⟨0, 20⟩, SMAStrategy.initState) :=
  rfl

/-- Claim C9 amended: construction never fails, whatever the window lengths;
non-positive windows are accepted silently at construction time, so any
resulting failure surfaces only later, inside the external engine, mid-run. -/
theorem construct_never_fails (p : Params) :
    SMAStrategy.construct p = Except.ok (p, SMAStrategy.initState) :=
  rfl

/-- Claim C10: a Submitted or Accepted order-status notification is a
no-op: the whole strategy state (pending order marker, buyprice, buycomm,
bar counter, positions) is returned unchanged and no log entry is
produced. -/
theorem nonterminal_notification_is_noop (s : StratState) (n : ℕ)
    (o : OrderNotif)
    (h : o.status = OrderStatus.Submitted ∨ o.status = OrderStatus.Accepted) :
    SMAStrategy.notifyOrder s n o = (s, []) := by
  unfold SMAStrategy.notifyOrder
  rw [if_pos h]

/-- Witness for C10 at a concrete pending state and a Submitted status. -/
theorem nonterminal_notification_is_noop_witness :
    SMAStrategy.notifyOrder
        { order := some (Instr.TLT, Side.buy), buyprice := none, buycomm := none,
          barExecuted := none, vtiSize := 0, tltSize := 0 }
        2 ⟨OrderStatus.Submitted, Instr.TLT, Side.buy, 7, 7, 1⟩
      = ({ order := some (Instr.TLT, Side.buy), buyprice := none, buycomm := none,
           barExecuted := none, vtiSize := 0, tltSize := 0 }, []) :=
  nonterminal_notification_is_noop _ 2 _ (Or.inl rfl)

end AmazonQMacro
